import Mathlib

/-!
Shallow embedding of the query-understanding and retrieval-fusion pipeline of the
multi-modal document-analysis backend (phase 3 query processing and phase 4
retrieval/generation).

Modelling conventions:
- Python floats are modelled as exact rationals; the score constants 0.6, 0.3,
  0.2, 0.1, 0.05 are exact in both representations.
- Python dicts flowing through retrieval are modelled as the `Candidate`
  structure with the fields `search_similar` produces; an absent dict key is an
  `Option` field. Python `==` on these dicts is structural equality.
- The external vector search (`embedder.search_similar`) and the external
  generation call are parameters (`search`, `generate`); a generation call that
  raises is `none`.
- In-place mutation of candidate dicts (writing `final_score` during re-ranking)
  is modelled by explicit state passing: the stage lists stored in the returned
  `RetrievalResult` are the score-carrying records, as the shared dict objects
  are after the Python code runs.
- Python `list.sort(key=..., reverse=True)` is a stable descending sort, modelled
  by `List.insertionSort` with the reflexive total relation `rGe` (greater-or-
  equal on final scores), which is the same stable descending sort.
-/

namespace MMRag

/-- Intent enum of the query processor (7 variants, as in the source). -/
inductive QueryIntent where
  | visual
  | textual
  | hybrid
  | comparative
  | analytical
  | factual
  | summary
deriving DecidableEq, BEq, Repr

/-- The `.value` string of each enum member, as in the source. -/
def QueryIntent.value : QueryIntent → String
  | .visual => "visual"
  | .textual => "textual"
  | .hybrid => "hybrid"
  | .comparative => "comparative"
  | .analytical => "analytical"
  | .factual => "factual"
  | .summary => "summary"

/-- `QueryAnalysis` dataclass.  The `metadata` dict of the source is flattened
into the five fields the source stores in it. -/
structure QueryAnalysis where
  intent : QueryIntent
  confidence : ℚ
  keywords : List String
  visual_keywords : List String
  complexity_score : ℚ
  requires_visuals : Bool
  requires_analysis : Bool
  suggested_template : String
  query_length : Nat
  word_count : Nat
  has_question_words : Bool
  is_comparative : Bool
  conversation_context : Nat
deriving DecidableEq, Repr

/-- `ResponseTemplate` dataclass. -/
structure ResponseTemplate where
  name : String
  intent_type : QueryIntent
  system_prompt : String
  user_prompt_template : String
  response_format : String
  include_visuals : Bool
  include_sources : Bool
  analysis_depth : String
deriving DecidableEq, Repr

/-- Lower-case an ASCII string (Python `str.lower` on the ASCII inputs used). -/
def lowerStr (s : String) : String := String.mk (s.toList.map Char.toLower)

/-- Substring test: Python `pat in s`. -/
def containsSub (s pat : String) : Bool :=
  s.toList.tails.any (fun t => pat.toList.isPrefixOf t)

/-- Word characters of the regex `\w` (ASCII inputs). -/
def isWordChar (c : Char) : Bool := c.isAlphanum || c == '_'

/-- Split a character list into the maximal runs satisfying `p` (dropping
separators and empty runs). -/
def splitRunsAux (p : Char → Bool) : List Char → List Char → List String
  | acc, [] => if acc.isEmpty then [] else [String.mk acc.reverse]
  | acc, c :: cs =>
    if p c then splitRunsAux p (c :: acc) cs
    else if acc.isEmpty then splitRunsAux p [] cs
    else String.mk acc.reverse :: splitRunsAux p [] cs

/-- `re.findall(r"\b\w+\b", query.lower())`: maximal word-character runs of the
lowered query. -/
def wordsOf (query : String) : List String :=
  splitRunsAux isWordChar [] (lowerStr query).toList

/-- Python `str.split()` with no argument: whitespace runs are separators,
empty pieces are dropped. -/
def pySplit (s : String) : List String :=
  splitRunsAux (fun c => !c.isWhitespace) [] s.toList

/-- Stop-word set of `_extract_keywords`. -/
def stopWords : List String :=
  ["the", "a", "an", "and", "or", "but", "in", "on", "at", "to", "for", "of",
   "with", "by", "is", "are", "was", "were", "be", "been", "being", "have",
   "has", "had", "do", "does", "did", "will", "would", "could", "should",
   "may", "might", "must", "can", "this", "that", "these", "those", "what",
   "when", "where", "why", "how"]

/-- `_load_visual_keywords`. -/
def visualKeywordsList : List String :=
  ["chart", "graph", "table", "figure", "diagram", "image", "plot",
   "visualization", "visual", "show", "display", "picture", "drawing",
   "trend", "pattern", "data", "statistics", "numbers", "values",
   "comparison", "distribution", "correlation", "relationship"]

/-- `_load_analytical_keywords`. -/
def analyticalKeywordsList : List String :=
  ["analyze", "analysis", "insight", "trend", "pattern", "correlation",
   "relationship", "implication", "significance", "conclusion",
   "interpretation", "meaning", "impact", "effect", "cause",
   "reason", "explanation", "methodology", "approach"]

/-- `_extract_keywords`: word tokens, minus stop words, length > 2. -/
def extractKeywords (query : String) : List String :=
  (wordsOf query).filter (fun w => !(stopWords.contains w) && decide (2 < w.length))

/-- `_extract_visual_keywords`: keywords that are in the visual vocabulary. -/
def extractVisualKeywords (query : String) : List String :=
  (extractKeywords query).filter (fun w => visualKeywordsList.contains w)

/-- `_is_comparative_query`: any comparative word occurs as a substring of the
lowered query. -/
def isComparativeQuery (query : String) : Bool :=
  ["compare", "comparison", "versus", "vs", "difference", "similar",
   "different", "contrast"].any (fun w => containsSub (lowerStr query) w)

/-- `_has_question_words`. -/
def hasQuestionWordsFn (query : String) : Bool :=
  ["what", "when", "where", "why", "how", "who", "which", "whose",
   "whom"].any (fun w => containsSub (lowerStr query) w)

/-- `_detect_intent`: first-match precedence over the intent checks. -/
def detectIntent (query : String) (keywords visual_keywords : List String) :
    QueryIntent :=
  if !visual_keywords.isEmpty
      || ["chart", "graph", "table", "figure", "visual"].any
           (fun w => containsSub (lowerStr query) w) then
    .visual
  else if isComparativeQuery query then
    .comparative
  else if analyticalKeywordsList.any (fun w => keywords.contains w) then
    .analytical
  else if ["summary", "summarize", "overview", "main points"].any
      (fun w => containsSub (lowerStr query) w) then
    .summary
  else if ["what", "when", "where", "who", "which"].any
      (fun w => containsSub (lowerStr query) w) then
    .factual
  else
    .textual

/-- `_calculate_confidence`: base 0.6, sequential boosts, clamp at 1. -/
def calculateConfidence (query : String) (intent : QueryIntent)
    (keywords : List String) : ℚ :=
  let base : ℚ := 6/10
  let base :=
    if (intent == .visual)
        && ["chart", "graph", "table"].any (fun w => containsSub (lowerStr query) w)
    then base + 3/10 else base
  let base :=
    if (intent == .analytical)
        && ["analyze", "analysis", "insight"].any (fun w => keywords.contains w)
    then base + 2/10 else base
  min base 1

/-- `_assess_complexity`: four bounded components, clamped at 1. -/
def assessComplexity (query : String) (keywords : List String) : ℚ :=
  let word_count := (pySplit query).length
  let s1 := min ((word_count : ℚ) / 20) (3/10)
  let complexKeywords :=
    ["analysis", "correlation", "relationship", "implication", "methodology"]
  let keyword_matches :=
    (keywords.filter (fun w => complexKeywords.contains w)).length
  let s2 := min ((keyword_matches : ℚ) / 5) (3/10)
  let s3 : ℚ := if containsSub query "?" then 2/10 else 0
  let s4 : ℚ :=
    if ["and", "also", "additionally", "furthermore"].any
        (fun w => containsSub (lowerStr query) w) then 2/10 else 0
  min (s1 + s2 + s3 + s4) 1

/-- `_requires_visuals`. -/
def requiresVisualsFn (intent : QueryIntent) (visual_keywords : List String) :
    Bool :=
  (intent == .visual) || (intent == .comparative) || decide (0 < visual_keywords.length)

/-- `_requires_analysis`. -/
def requiresAnalysisFn (intent : QueryIntent) (keywords : List String) : Bool :=
  (intent == .analytical) || (intent == .comparative)
    || analyticalKeywordsList.any (fun w => keywords.contains w)

/-- `_select_template`: chained precedence (`complexity_score` is accepted and
ignored, as in the source). -/
def selectTemplate (intent : QueryIntent) (complexity_score : ℚ)
    (requires_visuals : Bool) : String :=
  let _ := complexity_score
  if (intent == .visual) || requires_visuals then "visual_response"
  else if intent == .analytical then "analytical_response"
  else if intent == .comparative then "comparative_response"
  else if intent == .summary then "summary_response"
  else "basic_response"

/-- `analyze_query`.  Every operation of the `try` body is total on all string
inputs, so the `except` fallback (the hard-coded default analysis) is
unreachable and the body itself is the function.  `historyLen` is
`len(conversation_history) if conversation_history else 0`, which only enters
the metadata. -/
def analyzeQuery (query : String) (historyLen : Nat) : QueryAnalysis :=
  let keywords := extractKeywords query
  let visual_keywords := extractVisualKeywords query
  let intent := detectIntent query keywords visual_keywords
  let confidence := calculateConfidence query intent keywords
  let complexity_score := assessComplexity query keywords
  let requires_visuals := requiresVisualsFn intent visual_keywords
  let requires_analysis := requiresAnalysisFn intent keywords
  let suggested_template := selectTemplate intent complexity_score requires_visuals
  { intent := intent
    confidence := confidence
    keywords := keywords
    visual_keywords := visual_keywords
    complexity_score := complexity_score
    requires_visuals := requires_visuals
    requires_analysis := requires_analysis
    suggested_template := suggested_template
    query_length := query.length
    word_count := (pySplit query).length
    has_question_words := hasQuestionWordsFn query
    is_comparative := isComparativeQuery query
    conversation_context := historyLen }

/-- Fixed template table entry `basic_response` (prompt texts carried verbatim
up to inner whitespace; they are opaque to the pipeline logic). -/
def basicResponseTemplate : ResponseTemplate :=
  { name := "basic_response"
    intent_type := .textual
    system_prompt := "You are an advanced AI assistant specialized in document analysis. Provide accurate, helpful responses based on the document content provided. Always cite sources and maintain factual accuracy."
    user_prompt_template := "Based on the following document content, please answer this question: {query}\n\nContent:\n{content}\n\nPlease provide a {analysis_depth} response with clear explanations and source citations."
    response_format := "structured"
    include_visuals := false
    include_sources := true
    analysis_depth := "detailed" }

/-- Fixed template table entry `visual_response`. -/
def visualResponseTemplate : ResponseTemplate :=
  { name := "visual_response"
    intent_type := .visual
    system_prompt := "You are an expert in visual data analysis. When analyzing charts, graphs, tables, or diagrams, provide detailed descriptions of visual elements, data trends, and insights. Always explain what visual elements show and their significance."
    user_prompt_template := "Analyze the following query about visual content: {query}\n\nContent (including visual descriptions):\n{content}\n\nPlease provide a {analysis_depth} analysis that:\n1. Describes relevant visual elements in detail\n2. Explains data trends and patterns\n3. Provides insights and interpretations\n4. Includes source citations\n\nFocus on visual elements and their meaning."
    response_format := "visual_analysis"
    include_visuals := true
    include_sources := true
    analysis_depth := "comprehensive" }

/-- Fixed template table entry `analytical_response`. -/
def analyticalResponseTemplate : ResponseTemplate :=
  { name := "analytical_response"
    intent_type := .analytical
    system_prompt := "You are a research analyst expert. Provide deep analytical insights, identify patterns, trends, and relationships in the data. Support conclusions with evidence and explain methodologies when relevant."
    user_prompt_template := "Provide an analytical response to: {query}\n\nContent for analysis:\n{content}\n\nPlease provide a {analysis_depth} analysis that includes:\n1. Key findings and insights\n2. Data patterns and trends\n3. Implications and significance\n4. Supporting evidence with citations\n5. Methodological considerations if relevant\n\nFocus on analytical depth and evidence-based conclusions."
    response_format := "analytical_report"
    include_visuals := true
    include_sources := true
    analysis_depth := "comprehensive" }

/-- Fixed template table entry `comparative_response`. -/
def comparativeResponseTemplate : ResponseTemplate :=
  { name := "comparative_response"
    intent_type := .comparative
    system_prompt := "You are an expert in comparative analysis. Compare and contrast different data points, findings, or visual elements. Highlight similarities, differences, and relationships between compared elements."
    user_prompt_template := "Compare and analyze: {query}\n\nContent for comparison:\n{content}\n\nPlease provide a {analysis_depth} comparative analysis that includes:\n1. Clear comparison framework\n2. Similarities and differences\n3. Relative strengths and weaknesses\n4. Contextual factors\n5. Conclusions with supporting evidence\n\nStructure your response with clear comparisons and evidence."
    response_format := "comparative_analysis"
    include_visuals := true
    include_sources := true
    analysis_depth := "detailed" }

/-- Fixed template table entry `summary_response`. -/
def summaryResponseTemplate : ResponseTemplate :=
  { name := "summary_response"
    intent_type := .summary
    system_prompt := "You are an expert at creating clear, concise summaries. Extract key points, main findings, and essential information while maintaining accuracy and completeness."
    user_prompt_template := "Create a summary for: {query}\n\nContent to summarize:\n{content}\n\nPlease provide a {analysis_depth} summary that includes:\n1. Main points and key findings\n2. Important data and statistics\n3. Significant conclusions\n4. Relevant visual insights if applicable\n\nKeep the summary clear, accurate, and well-organized."
    response_format := "structured_summary"
    include_visuals := false
    include_sources := true
    analysis_depth := "detailed" }

/-- `select_response_template`: dictionary lookup by the suggested template
name, falling back to the basic template. -/
def selectResponseTemplate (analysis : QueryAnalysis) : ResponseTemplate :=
  if analysis.suggested_template == "basic_response" then basicResponseTemplate
  else if analysis.suggested_template == "visual_response" then visualResponseTemplate
  else if analysis.suggested_template == "analytical_response" then analyticalResponseTemplate
  else if analysis.suggested_template == "comparative_response" then comparativeResponseTemplate
  else if analysis.suggested_template == "summary_response" then summaryResponseTemplate
  else basicResponseTemplate

/-- One retrieved unit, i.e. one of the result dicts produced by
`search_similar` (`document_store` entry copy plus `similarity_score` and
`rank`) and flowing through the retrieval pipeline.  `page_number` models
`metadata.get("page_number")` (`none` when the key is absent); `final_score`
is absent (`none`) until the re-ranking stage writes it.  Structural equality
of this record models Python `==` on the result dicts. -/
structure Candidate where
  id : String
  content : String
  content_type : String
  page_number : Option Nat
  visual_link : Option String
  similarity_score : ℚ
  rank : Nat
  final_score : Option ℚ
deriving DecidableEq, Repr

/-- `RetrievalResult` dataclass; the four count fields flatten
`retrieval_metadata`. -/
structure RetrievalResult where
  primary_results : List Candidate
  visual_results : List Candidate
  context_results : List Candidate
  reranked_results : List Candidate
  total_retrieved : Nat
  visual_count : Nat
  primary_count : Nat
  context_count : Nat
deriving DecidableEq, Repr

/-- One entry of `GeneratedResponse.sources` as built by `_extract_sources`. -/
structure SourceSummary where
  content : String
  page : Nat
  type : String
  relevance_score : ℚ
deriving DecidableEq, Repr

/-- One `visual_store` entry, with the dict defaults of `_extract_visuals`
(`.get("type", "image")`, `.get("image_data", "")`) materialised. -/
structure VisualData where
  vtype : String
  image_data : String
deriving DecidableEq, Repr

/-- One entry of `GeneratedResponse.visuals` as built by `_extract_visuals`. -/
structure VisualSummary where
  id : String
  vtype : String
  description : String
  page : Nat
  image_data : String
  relevance_score : ℚ
deriving DecidableEq, Repr

/-- `GeneratedResponse` dataclass (the free-form `metadata` dict, which no
pipeline logic reads back, is omitted). -/
structure GeneratedResponse where
  content : String
  sources : List SourceSummary
  visuals : List VisualSummary
  confidence_score : ℚ
  response_type : String
deriving DecidableEq, Repr

/-- The external similarity-search capability `embedder.search_similar`,
abstracted as a total function (a raising stage is modelled by the stage
returning its failure value, see `primaryRetrieval`). -/
def SearchFn : Type := String → Nat → List Candidate

/-- Python string slice `s[:n]` (take the first `n` characters). -/
def strTake (s : String) (n : Nat) : String := String.mk (s.toList.take n)

/-- Single ASCII apostrophe, used in the fixed apology text. -/
def apostrophe : String := String.mk [Char.ofNat 39]

/-- Fallback content when the generation call returns an empty result. -/
def emptyGenApology : String :=
  "I apologize, but I couldn" ++ apostrophe ++ "t generate a response."

/-- Content of the error response when the generation call raises. -/
def genErrorApology : String :=
  "I apologize, but I encountered an error generating the response."

/-- `_primary_retrieval`: `search(query, top_k=10)`; an exception inside the
stage is caught and yields `[]`, which is the image of a totalised `search`
returning `[]`. -/
def primaryRetrieval (search : SearchFn) (query : String) : List Candidate :=
  search query 10

/-- `_visual_retrieval`: search the visual keywords joined with the four
anchor terms (`top_k=5`), then keep only synthetic-visual candidates. -/
def visualRetrieval (search : SearchFn) (visual_keywords : List String) :
    List Candidate :=
  let visual_query :=
    String.intercalate " " (visual_keywords ++ ["chart", "graph", "table", "figure"])
  (search visual_query 5).filter (fun r => r.content_type == "synthetic_visual")

/-- First-occurrence deduplication of the page numbers; models iterating the
Python `set` built by successive `add` calls (the hash iteration order of the
set is unspecified, any fixed order is a sound model for the properties
settled here, none of which depend on the page order). -/
def dedupNatAux (seen : List Nat) : List Nat → List Nat
  | [] => []
  | x :: t =>
    if seen.contains x then dedupNatAux seen t
    else x :: dedupNatAux (x :: seen) t

/-- Distinct page numbers in order of first occurrence. -/
def dedupNat (l : List Nat) : List Nat := dedupNatAux [] l

/-- `_context_expansion`: for every distinct page number referenced by a
primary or visual candidate, search `"page N"` (`top_k=3`) and keep the
results that are not already present — by Python dict equality, i.e. full
structural equality — in the primary or visual lists; cap the total at 5. -/
def contextExpansion (search : SearchFn) (primary_results visual_results : List Candidate) :
    List Candidate :=
  let page_numbers :=
    dedupNat ((primary_results ++ visual_results).filterMap (fun r => r.page_number))
  let context_results :=
    page_numbers.flatMap (fun p =>
      (search ("page " ++ toString p) 3).filter
        (fun r => decide (¬ r ∈ primary_results ∧ ¬ r ∈ visual_results)))
  context_results.take 5

/-- `_calculate_relevance_score`: similarity plus three boosts, clamped at 1. -/
def relevanceScore (analysis : QueryAnalysis) (result : Candidate) : ℚ :=
  let base := result.similarity_score
  let base :=
    if analysis.requires_visuals && (result.content_type == "synthetic_visual")
    then base + 2/10 else base
  let base :=
    if containsSub (lowerStr result.content) analysis.intent.value
    then base + 1/10 else base
  let visual_keyword_matches :=
    (analysis.visual_keywords.filter
      (fun k => containsSub (lowerStr result.content) k)).length
  let base := base + (visual_keyword_matches : ℚ) * (5/100)
  min base 1

/-- The in-place update `result["final_score"] = score` of `_rerank_results`. -/
def assignScore (analysis : QueryAnalysis) (result : Candidate) : Candidate :=
  { result with final_score := some (relevanceScore analysis result) }

/-- Sort key of `_rerank_results` (`final_score` is always present there). -/
def keyScore (c : Candidate) : ℚ := c.final_score.getD 0

/-- Ordering used by `scored_results.sort(key=..., reverse=True)`: `a` before
`b` when the final score of `a` is at least that of `b`. -/
def rGe (a b : Candidate) : Prop := keyScore b ≤ keyScore a

instance : DecidableRel rGe := fun a b =>
  inferInstanceAs (Decidable (keyScore b ≤ keyScore a))

instance : IsTotal Candidate rGe :=
  ⟨fun a b => le_total (keyScore b) (keyScore a)⟩

instance : IsTrans Candidate rGe :=
  ⟨fun _ _ _ hab hbc => le_trans hbc hab⟩

/-- `_rerank_results`: score every candidate (writing `final_score` into the
record), stable-sort descending by `final_score`, return the top 10. -/
def rerankResults (analysis : QueryAnalysis) (all_results : List Candidate) :
    List Candidate :=
  (List.insertionSort rGe (all_results.map (assignScore analysis))).take 10

/-- `_multi_stage_retrieval`.  The stage lists stored in the result carry the
`final_score` written in place by the re-ranking stage (the Python record
objects are shared between the stage lists and the re-ranked pool). -/
def multiStageRetrieval (search : SearchFn) (query : String)
    (analysis : QueryAnalysis) : RetrievalResult :=
  let primary_results := primaryRetrieval search query
  let visual_results :=
    if analysis.requires_visuals then visualRetrieval search analysis.visual_keywords
    else []
  let context_results := contextExpansion search primary_results visual_results
  let reranked_results :=
    rerankResults analysis (primary_results ++ visual_results ++ context_results)
  { primary_results := primary_results.map (assignScore analysis)
    visual_results := visual_results.map (assignScore analysis)
    context_results := context_results.map (assignScore analysis)
    reranked_results := reranked_results
    total_retrieved := reranked_results.length
    visual_count := visual_results.length
    primary_count := primary_results.length
    context_count := context_results.length }

/-- `_extract_sources`: top 3 results, 200-character preview, 1-based page. -/
def extractSources (results : List Candidate) : List SourceSummary :=
  (results.take 3).map (fun r =>
    { content := strTake r.content 200 ++ "..."
      page := r.page_number.getD 0 + 1
      type := r.content_type
      relevance_score := r.final_score.getD 0 })

/-- `_extract_visuals`: top 3 visual results carrying a non-empty
`visual_link` that resolves in the visual store. -/
def extractVisuals (visualStore : String → Option VisualData)
    (visual_results : List Candidate) : List VisualSummary :=
  (visual_results.take 3).filterMap (fun r =>
    match r.visual_link with
    | none => none
    | some vid =>
      if vid == "" then none
      else
        match visualStore vid with
        | none => none
        | some vd =>
          some { id := vid
                 vtype := vd.vtype
                 description := r.content
                 page := r.page_number.getD 0 + 1
                 image_data := vd.image_data
                 relevance_score := r.final_score.getD 0 })

/-- `np.mean` over the stored final scores (`r.get("final_score", 0)`). -/
def meanFinalScore (results : List Candidate) : ℚ :=
  ((results.map keyScore).sum) / (results.length : ℚ)

/-- `_calculate_response_confidence`: analysis confidence plus retrieval,
length and visual boosts, clamped at 1. -/
def calculateResponseConfidence (analysis : QueryAnalysis)
    (retrieval_results : RetrievalResult) (response_length : Nat) : ℚ :=
  let base := analysis.confidence
  let base :=
    if !retrieval_results.reranked_results.isEmpty
    then base + meanFinalScore retrieval_results.reranked_results * 2/10 else base
  let base := if decide (100 < response_length) then base + 1/10 else base
  let base :=
    if analysis.requires_visuals && !retrieval_results.visual_results.isEmpty
    then base + 1/10 else base
  min base 1

/-- `generate_system_prompt`: static system text plus the document line (the
context always carries the truthy name `"Uploaded Document"`) and, when
visual results exist, the availability line. -/
def generateSystemPrompt (template : ResponseTemplate)
    (available_visuals : List Candidate) : String :=
  template.system_prompt ++ "\n\nDocument being analyzed: Uploaded Document" ++
    (if !available_visuals.isEmpty then
      "\n\nAvailable visuals: " ++ toString available_visuals.length ++ " visual elements"
     else "")

/-- Replace every occurrence of `pat` (non-empty) by `rep`, left to right;
fuelled by the input length, which bounds the number of steps. -/
def replaceFuel (pat rep : List Char) : Nat → List Char → List Char
  | _, [] => []
  | 0, s => s
  | Nat.succ fuel, c :: cs =>
    if !pat.isEmpty && pat.isPrefixOf (c :: cs) then
      rep ++ replaceFuel pat rep fuel ((c :: cs).drop pat.length)
    else
      c :: replaceFuel pat rep fuel cs

/-- Python `str.replace`. -/
def strReplace (s pat rep : String) : String :=
  String.mk (replaceFuel pat.toList rep.toList s.toList.length s.toList)

/-- `str.format` substitution of the three placeholders of a template. -/
def formatUserPrompt (template : ResponseTemplate) (query content : String) :
    String :=
  strReplace
    (strReplace (strReplace template.user_prompt_template "{query}" query)
      "{content}" content)
    "{analysis_depth}" template.analysis_depth

/-- `generate_user_prompt`: partition retrieved content into text and visual
sections (previews of 500 and 300 characters, caps of 5 and 3 items, visual
section only when the template includes visuals), then fill the template. -/
def generateUserPrompt (template : ResponseTemplate) (query : String)
    (retrieved_content : List Candidate) : String :=
  let text_content :=
    retrieved_content.filter (fun i => !(i.content_type == "synthetic_visual"))
  let visual_content :=
    retrieved_content.filter (fun i => i.content_type == "synthetic_visual")
  let textSection :=
    if !text_content.isEmpty then
      "**Text Content:**" ::
        ((text_content.take 5).enum.map
          (fun p => toString (p.1 + 1) ++ ". " ++ strTake p.2.content 500 ++ "..."))
    else []
  let visualSection :=
    if !visual_content.isEmpty && template.include_visuals then
      "\n**Visual Content:**" ::
        ((visual_content.take 3).enum.map
          (fun p => toString (p.1 + 1) ++ ". " ++ strTake p.2.content 300 ++ "..."))
    else []
  formatUserPrompt template query
    (String.intercalate "\n" (textSection ++ visualSection))

/-- `_generate_structured_response`.  `generate` is the external generation
call on the combined prompt: `none` models the call raising (caught by the
`except` branch, which returns the error-typed response); `some t` is a
returned text, with the falsy empty text replaced by the apology while the
response is otherwise assembled normally. -/
def generateStructuredResponse (generate : String → Option String)
    (visualStore : String → Option VisualData) (query : String)
    (analysis : QueryAnalysis) (template : ResponseTemplate)
    (retrieval_results : RetrievalResult) : GeneratedResponse :=
  let system_prompt := generateSystemPrompt template retrieval_results.visual_results
  let user_prompt :=
    generateUserPrompt template query (retrieval_results.reranked_results.take 5)
  let full_prompt := system_prompt ++ "\n\n" ++ user_prompt
  match generate full_prompt with
  | none =>
    { content := genErrorApology
      sources := []
      visuals := []
      confidence_score := 0
      response_type := "error" }
  | some t =>
    let content := if t == "" then emptyGenApology else t
    { content := content
      sources := extractSources retrieval_results.reranked_results
      visuals := extractVisuals visualStore retrieval_results.visual_results
      confidence_score :=
        calculateResponseConfidence analysis retrieval_results content.length
      response_type := template.response_format }

/-- `retrieve_and_generate`: analyse, retrieve, select the template, generate.
Every step of the `try` body is total here (generation failure is already
converted inside `generateStructuredResponse`), so the outer `except` branch
is unreachable. -/
def retrieveAndGenerate (search : SearchFn) (generate : String → Option String)
    (visualStore : String → Option VisualData) (query : String)
    (historyLen : Nat) : GeneratedResponse :=
  let analysis := analyzeQuery query historyLen
  let retrieval_results := multiStageRetrieval search query analysis
  let template := selectResponseTemplate analysis
  generateStructuredResponse generate visualStore query analysis template
    retrieval_results

/-!  Concrete fixtures used by the counterexamples and witnesses. -/

/-- A primary-search result located on page 3. -/
def c5Primary : Candidate :=
  { id := "a", content := "x", content_type := "text", page_number := some 3,
    visual_link := none, similarity_score := 1, rank := 1, final_score := none }

/-- The same stored document returned by the page-keyed secondary search with a
different similarity score (the secondary query embeds differently). -/
def c5PageResult : Candidate := { c5Primary with similarity_score := 0 }

/-- Search capability for the context-expansion scenario: the page-3 secondary
search returns `c5PageResult`. -/
def c5SearchFn : SearchFn := fun q _ => if q == "page 3" then [c5PageResult] else []

/-- A synthetic-visual candidate returned by the primary search. -/
def c2Primary : Candidate :=
  { id := "a", content := "", content_type := "synthetic_visual",
    page_number := none, visual_link := none, similarity_score := 1, rank := 1,
    final_score := none }

/-- The same stored document returned by the visual-stage search with a
different similarity score. -/
def c2Visual : Candidate := { c2Primary with similarity_score := 0 }

/-- Search capability for the fusion scenario: the primary search and the
visual-stage search both return the document with id `"a"`. -/
def c2SearchFn : SearchFn := fun q k =>
  if q == "show me the chart" && k == 10 then [c2Primary]
  else if q == "show chart chart graph table figure" && k == 5 then [c2Visual]
  else []

/-- `c2Primary` after fusion wrote its final score. -/
def c2ScoredPrimary : Candidate := { c2Primary with final_score := some 1 }

/-- `c2Visual` after fusion wrote its final score. -/
def c2ScoredVisual : Candidate := { c2Visual with final_score := some (2/10) }

/-- An empty retrieval result (all stages empty). -/
def emptyRetrieval : RetrievalResult :=
  { primary_results := [], visual_results := [], context_results := [],
    reranked_results := [], total_retrieved := 0, visual_count := 0,
    primary_count := 0, context_count := 0 }

/-- A single text candidate used to exercise the re-ranking stage. -/
def c8Fixture : Candidate :=
  { id := "a", content := "", content_type := "text", page_number := none,
    visual_link := none, similarity_score := 1, rank := 1, final_score := none }

/-!  Theorems about the embedded pipeline. -/

/-- Helper: the confidence computed for the empty query is 0.6. -/
theorem analyzeEmpty_confidence : (analyzeQuery "" 0).confidence = 3/5 := by
  simp only [analyzeQuery]
  have e1 : extractKeywords "" = [] := by decide
  have e2 : extractVisualKeywords "" = [] := by decide
  have e3 : detectIntent "" [] [] = QueryIntent.textual := by decide
  rw [e1, e2, e3]
  have c1 : ((QueryIntent.textual == QueryIntent.visual)
      && ["chart", "graph", "table"].any
           (fun w => containsSub (lowerStr "") w)) = false := by decide
  have c2 : ((QueryIntent.textual == QueryIntent.analytical)
      && ["analyze", "analysis", "insight"].any
           (fun w => ([] : List String).contains w)) = false := by decide
  simp only [calculateConfidence, c1, c2, Bool.false_eq_true, if_false]
  norm_num

/-- Helper: the complexity computed for the empty query is 0. -/
theorem analyzeEmpty_complexity : (analyzeQuery "" 0).complexity_score = 0 := by
  simp only [analyzeQuery]
  have e1 : extractKeywords "" = [] := by decide
  rw [e1]
  have hw : (pySplit "").length = 0 := by decide
  have hq : containsSub "" "?" = false := by decide
  have hconj : (["and", "also", "additionally", "furthermore"].any
      (fun w => containsSub (lowerStr "") w)) = false := by decide
  simp only [assessComplexity, hw, hq, hconj, Bool.false_eq_true, if_false,
    List.filter_nil, List.length_nil, Nat.cast_zero]
  norm_num

/-- C1 counterexample: on the query of the scenario the analyzer does not
select the comparative template (it selects the visual one, because
comparative intent sets `requires_visuals` and the visual check has
precedence in `_select_template`). -/
theorem c1_counterexample :
    (analyzeQuery "Compare Q1 and Q2 performance" 0).suggested_template ≠
      "comparative_response" := by
  decide

/-- C1 (amended): for the query "Compare Q1 and Q2 performance" the intent is
COMPARATIVE but the selected template id is `visual_response`, since
`_requires_visuals` is true for comparative intent and the visual branch of
`_select_template` fires first; `_select_template` itself, applied to
comparative intent with `requires_visuals = false`, does return
`comparative_response`. -/
theorem c1_comparative_scenario :
    (analyzeQuery "Compare Q1 and Q2 performance" 0).intent =
        QueryIntent.comparative ∧
      (analyzeQuery "Compare Q1 and Q2 performance" 0).suggested_template =
        "visual_response" ∧
      ∀ c : ℚ, selectTemplate QueryIntent.comparative c false =
        "comparative_response" := by
  refine ⟨by decide, by decide, fun c => rfl⟩

/-- C4 counterexample: `analyze_query("")` does not return confidence 0.5 (the
`try` body never raises on the empty string, so the 0.5 default of the
`except` branch is not taken; the computed confidence is the base 6/10). -/
theorem c4_counterexample :
    (analyzeQuery "" 0).confidence ≠ 1/2 := by
  rw [analyzeEmpty_confidence]
  norm_num

/-- C4 (amended): `analyze_query("")` returns the TEXTUAL analysis with
confidence 0.6 (not 0.5), complexity 0, empty keyword sets, no visual
requirement and the basic template; and the analysis is deterministic (two
calls on the same input give identical output). -/
theorem c4_analyze_empty :
    (analyzeQuery "" 0).intent = QueryIntent.textual ∧
      (analyzeQuery "" 0).confidence = 3/5 ∧
      (analyzeQuery "" 0).keywords = [] ∧
      (analyzeQuery "" 0).visual_keywords = [] ∧
      (analyzeQuery "" 0).complexity_score = 0 ∧
      (analyzeQuery "" 0).requires_visuals = false ∧
      (analyzeQuery "" 0).suggested_template = "basic_response" ∧
      analyzeQuery "" 0 = analyzeQuery "" 0 := by
  exact ⟨by decide, analyzeEmpty_confidence, by decide, by decide,
    analyzeEmpty_complexity, by decide, by decide, rfl⟩

/-- C7: any query whose extracted keywords contain a visual-vocabulary term,
or which literally mentions chart/graph/table/figure/visual, is classified
with VISUAL intent, whatever other vocabulary it contains (the visual check
is the first branch of `_detect_intent`). -/
theorem c7_visual_precedence (query : String) (historyLen : Nat)
    (h : extractVisualKeywords query ≠ [] ∨
      ∃ w ∈ ["chart", "graph", "table", "figure", "visual"],
        containsSub (lowerStr query) w = true) :
    (analyzeQuery query historyLen).intent = QueryIntent.visual := by
  have hc : (!(extractVisualKeywords query).isEmpty
      || ["chart", "graph", "table", "figure", "visual"].any
           (fun w => containsSub (lowerStr query) w)) = true := by
    rcases h with h | ⟨w, hw, hsub⟩
    · simp [List.isEmpty_eq_false_iff_exists_mem, List.isEmpty_iff, h]
    · simp only [Bool.or_eq_true, List.any_eq_true]
      exact Or.inr ⟨w, hw, hsub⟩
  simp only [analyzeQuery, detectIntent, hc, if_true]

/-- C7 witness: the single-word query "chart" satisfies the hypothesis and is
classified VISUAL. -/
theorem c7_visual_precedence_witness :
    (extractVisualKeywords "chart" ≠ [] ∨
      ∃ w ∈ ["chart", "graph", "table", "figure", "visual"],
        containsSub (lowerStr "chart") w = true) ∧
      (analyzeQuery "chart" 0).intent = QueryIntent.visual :=
  ⟨Or.inl (by decide), c7_visual_precedence "chart" 0 (Or.inl (by decide))⟩

/-- C10: after the multi-stage retrieval runs, every entry of the primary,
visual and context lists inside the returned `RetrievalResult` carries the
fused `final_score` (the re-ranking stage wrote it into every shared record
before truncating to the top 10, so this includes candidates truncated out of
the reranked list). -/
theorem c10_rerank_mutates_stage_lists (search : SearchFn) (query : String)
    (analysis : QueryAnalysis) :
    ∀ c ∈ (multiStageRetrieval search query analysis).primary_results ++
        (multiStageRetrieval search query analysis).visual_results ++
        (multiStageRetrieval search query analysis).context_results,
      c.final_score = some (relevanceScore analysis c) := by
  intro c hc
  simp only [multiStageRetrieval, List.mem_append, List.mem_map] at hc
  rcases hc with (⟨c₀, _, rfl⟩ | ⟨c₀, _, rfl⟩) | ⟨c₀, _, rfl⟩ <;> rfl

/-- C10 witness: a concrete one-candidate search, evaluated through the
pipeline; the stage-list entry carries its relevance score. -/
theorem c10_rerank_mutates_stage_lists_witness :
    (Candidate.mk "a" "" "text" none none (9/10) 1
        (some (relevanceScore (analyzeQuery "" 0)
          (Candidate.mk "a" "" "text" none none (9/10) 1 none)))).final_score =
      some (relevanceScore (analyzeQuery "" 0)
        (Candidate.mk "a" "" "text" none none (9/10) 1
          (some (relevanceScore (analyzeQuery "" 0)
            (Candidate.mk "a" "" "text" none none (9/10) 1 none))))) := by
  have hm : (Candidate.mk "a" "" "text" none none (9/10) 1
      (some (relevanceScore (analyzeQuery "" 0)
        (Candidate.mk "a" "" "text" none none (9/10) 1 none)))) ∈
      (multiStageRetrieval
        (fun _ _ => [Candidate.mk "a" "" "text" none none (9/10) 1 none]) ""
        (analyzeQuery "" 0)).primary_results := by
    show _ ∈ [assignScore (analyzeQuery "" 0)
      (Candidate.mk "a" "" "text" none none (9/10) 1 none)]
    exact List.Mem.head _
  exact c10_rerank_mutates_stage_lists
    (fun _ _ => [Candidate.mk "a" "" "text" none none (9/10) 1 none]) ""
    (analyzeQuery "" 0) _ (List.mem_append_left _ hm)

/-- C5 counterexample: the context-expansion stage can return a candidate
whose id is already present in the primary list.  The membership test of the
source compares whole dicts, so the same stored document returned by the
page-keyed search with a different similarity score is kept. -/
theorem c5_counterexample :
    ¬ (∀ c ∈ contextExpansion c5SearchFn [c5Primary] [],
        c.id ∉ [c5Primary].map (fun p => p.id)) := by
  decide

/-- C5 (amended): the context-expansion stage returns at most 5 candidates,
and none of them is structurally equal (Python dict equality, the test the
source performs) to a candidate of the primary or visual lists; the exclusion
is not by id, see the counterexample. -/
theorem c5_context_dedup_is_structural (search : SearchFn)
    (primary_results visual_results : List Candidate) :
    (contextExpansion search primary_results visual_results).length ≤ 5 ∧
      ∀ c ∈ contextExpansion search primary_results visual_results,
        c ∉ primary_results ∧ c ∉ visual_results := by
  constructor
  · simp only [contextExpansion]
    exact List.length_take_le 5 _
  · intro c hc
    simp only [contextExpansion] at hc
    have hc' := List.mem_of_mem_take hc
    rw [List.mem_flatMap] at hc'
    obtain ⟨p, _, hcf⟩ := hc'
    exact of_decide_eq_true (List.mem_filter.mp hcf).2

/-- C5 witness: the amended statement applied to the concrete page-3 search. -/
theorem c5_context_dedup_is_structural_witness :
    (contextExpansion c5SearchFn [c5Primary] []).length ≤ 5 ∧
      (c5PageResult ∉ [c5Primary] ∧ c5PageResult ∉ ([] : List Candidate)) :=
  ⟨(c5_context_dedup_is_structural c5SearchFn [c5Primary] []).1,
   (c5_context_dedup_is_structural c5SearchFn [c5Primary] []).2 c5PageResult
     (by decide)⟩

/-- The fusion scenario: the same document id retrieved by both the primary
and the visual stages survives fusion twice.  Helper evaluation of the
re-ranked list of the scenario. -/
theorem c2RerankedEval :
    (multiStageRetrieval c2SearchFn "show me the chart"
        (analyzeQuery "show me the chart" 0)).reranked_results =
      [c2ScoredPrimary, c2ScoredVisual] := by
  have hrv : (analyzeQuery "show me the chart" 0).requires_visuals = true := by
    decide
  have hprim : primaryRetrieval c2SearchFn "show me the chart" = [c2Primary] := by
    decide
  have hvis : visualRetrieval c2SearchFn
      (analyzeQuery "show me the chart" 0).visual_keywords = [c2Visual] := by
    decide
  have hctx : contextExpansion c2SearchFn [c2Primary] [c2Visual] = [] := by
    decide
  have hb1 : ((analyzeQuery "show me the chart" 0).requires_visuals
      && (c2Primary.content_type == "synthetic_visual")) = true := by decide
  have hb1v : ((analyzeQuery "show me the chart" 0).requires_visuals
      && (c2Visual.content_type == "synthetic_visual")) = true := by decide
  have hb2 : containsSub (lowerStr c2Primary.content)
      (analyzeQuery "show me the chart" 0).intent.value = false := by decide
  have hb2v : containsSub (lowerStr c2Visual.content)
      (analyzeQuery "show me the chart" 0).intent.value = false := by decide
  have hb3 : ((analyzeQuery "show me the chart" 0).visual_keywords.filter
      (fun k => containsSub (lowerStr c2Primary.content) k)).length = 0 := by
    decide
  have hb3v : ((analyzeQuery "show me the chart" 0).visual_keywords.filter
      (fun k => containsSub (lowerStr c2Visual.content) k)).length = 0 := by
    decide
  have hs1 : relevanceScore (analyzeQuery "show me the chart" 0) c2Primary = 1 := by
    simp only [relevanceScore, hb1, hb2, hb3, if_true, Bool.false_eq_true,
      if_false, Nat.cast_zero, zero_mul, add_zero]
    norm_num [c2Primary, min_def]
  have hs2 : relevanceScore (analyzeQuery "show me the chart" 0) c2Visual = 2/10 := by
    simp only [relevanceScore, hb1v, hb2v, hb3v, if_true, Bool.false_eq_true,
      if_false, Nat.cast_zero, zero_mul, add_zero]
    norm_num [c2Visual, c2Primary, min_def]
  have ha1 : assignScore (analyzeQuery "show me the chart" 0) c2Primary =
      c2ScoredPrimary := by
    simp only [assignScore, hs1]
    rfl
  have ha2 : assignScore (analyzeQuery "show me the chart" 0) c2Visual =
      c2ScoredVisual := by
    simp only [assignScore, hs2]
    rfl
  have hord : rGe c2ScoredPrimary c2ScoredVisual := by
    show keyScore c2ScoredVisual ≤ keyScore c2ScoredPrimary
    norm_num [keyScore, c2ScoredPrimary, c2ScoredVisual, c2Primary, c2Visual]
  simp only [multiStageRetrieval, hrv, if_true, hprim, hvis, hctx]
  simp only [rerankResults, List.append_nil, List.cons_append, List.nil_append,
    List.map_cons, List.map_nil, ha1, ha2, List.insertionSort]
  rw [List.orderedInsert, List.orderedInsert, if_pos hord]
  rfl

/-- C2 counterexample: with the primary and visual stages both retrieving the
document with id `"a"`, the re-ranked list contains that id twice — the
fusion stage does not deduplicate by id. -/
theorem c2_counterexample :
    ((multiStageRetrieval c2SearchFn "show me the chart"
        (analyzeQuery "show me the chart" 0)).reranked_results.map
          (fun c => c.id)) = ["a", "a"] ∧
      ¬ ((multiStageRetrieval c2SearchFn "show me the chart"
          (analyzeQuery "show me the chart" 0)).reranked_results.map
            (fun c => c.id)).Nodup := by
  rw [c2RerankedEval]
  exact ⟨by decide, by decide⟩

/-- C2 (amended): fusion does not deduplicate by id.  What holds instead: the
re-ranked list has at most 10 entries and every entry is one of the (score-
carrying) records of the primary, visual and context stage lists — a document
retrieved by more than one stage appears once per retrieval, and only the
context stage excluded records structurally equal to primary or visual
entries. -/
theorem c2_reranked_within_stage_lists (search : SearchFn) (query : String)
    (analysis : QueryAnalysis) :
    (multiStageRetrieval search query analysis).reranked_results.length ≤ 10 ∧
      ∀ c ∈ (multiStageRetrieval search query analysis).reranked_results,
        c ∈ (multiStageRetrieval search query analysis).primary_results ++
            (multiStageRetrieval search query analysis).visual_results ++
            (multiStageRetrieval search query analysis).context_results := by
  constructor
  · simp only [multiStageRetrieval, rerankResults]
    exact List.length_take_le 10 _
  · intro c hc
    simp only [multiStageRetrieval, rerankResults] at hc ⊢
    have hc' := List.mem_of_mem_take hc
    have hperm := List.perm_insertionSort rGe
      (((primaryRetrieval search query ++
          (if analysis.requires_visuals = true then
            visualRetrieval search analysis.visual_keywords else []) ++
          contextExpansion search (primaryRetrieval search query)
            (if analysis.requires_visuals = true then
              visualRetrieval search analysis.visual_keywords else []))).map
        (assignScore analysis))
    have hm := hperm.mem_iff.mp hc'
    simpa [List.map_append] using hm

/-- C2 witness: in the concrete fusion scenario the first re-ranked entry is
a record of the concatenated stage lists. -/
theorem c2_reranked_within_stage_lists_witness :
    (multiStageRetrieval c2SearchFn "show me the chart"
        (analyzeQuery "show me the chart" 0)).reranked_results.length ≤ 10 ∧
      c2ScoredPrimary ∈
        (multiStageRetrieval c2SearchFn "show me the chart"
            (analyzeQuery "show me the chart" 0)).primary_results ++
          (multiStageRetrieval c2SearchFn "show me the chart"
              (analyzeQuery "show me the chart" 0)).visual_results ++
          (multiStageRetrieval c2SearchFn "show me the chart"
              (analyzeQuery "show me the chart" 0)).context_results :=
  ⟨(c2_reranked_within_stage_lists c2SearchFn "show me the chart"
      (analyzeQuery "show me the chart" 0)).1,
   (c2_reranked_within_stage_lists c2SearchFn "show me the chart"
      (analyzeQuery "show me the chart" 0)).2 c2ScoredPrimary
     (by rw [c2RerankedEval]; exact List.mem_cons_self _ _)⟩

/-- Helper: every template of the fixed table has a response format different
from the reserved "error" tag. -/
theorem selectResponseTemplate_format_ne_error (analysis : QueryAnalysis) :
    (selectResponseTemplate analysis).response_format ≠ "error" := by
  unfold selectResponseTemplate
  split_ifs <;> decide

/-- Helper: the confidence of any analysis is at least the base 0.6. -/
theorem calculateConfidence_lower (query : String) (intent : QueryIntent)
    (keywords : List String) : 3/5 ≤ calculateConfidence query intent keywords := by
  simp only [calculateConfidence]
  refine le_min ?_ (by norm_num)
  split_ifs <;> norm_num

/-- Helper: the confidence field of any produced analysis is at least 0.6. -/
theorem analyzeQuery_confidence_lower (query : String) (historyLen : Nat) :
    3/5 ≤ (analyzeQuery query historyLen).confidence := by
  simp only [analyzeQuery]
  exact calculateConfidence_lower query _ _

/-- Helper: with an empty retrieval result the response confidence keeps the
analysis confidence (plus at most the length boost), hence stays at least
0.6 whenever the analysis confidence does. -/
theorem respConf_empty_lower (analysis : QueryAnalysis) (n : Nat)
    (h : 3/5 ≤ analysis.confidence) :
    3/5 ≤ calculateResponseConfidence analysis emptyRetrieval n := by
  simp only [calculateResponseConfidence, emptyRetrieval, List.isEmpty_nil,
    Bool.not_true, Bool.false_eq_true, if_false, Bool.and_false]
  refine le_min ?_ (by norm_num)
  split_ifs <;> linarith

/-- Helper: a search capability that returns nothing makes every stage of the
multi-stage retrieval empty. -/
theorem multiStage_empty (search : SearchFn)
    (hs : ∀ s k, search s k = []) (query : String) (analysis : QueryAnalysis) :
    multiStageRetrieval search query analysis = emptyRetrieval := by
  simp only [multiStageRetrieval, primaryRetrieval, visualRetrieval,
    contextExpansion, rerankResults, hs, List.filter_nil, ite_self,
    List.nil_append, List.append_nil, List.filterMap_nil, List.map_nil,
    List.take_nil, List.length_nil]
  rfl

/-- Helper: the value of `_generate_structured_response` when the generation
call returns text `t`. -/
theorem genStructured_some (generate : String → Option String)
    (visualStore : String → Option VisualData) (query : String)
    (analysis : QueryAnalysis) (template : ResponseTemplate)
    (rr : RetrievalResult) (t : String)
    (hgen : generate (generateSystemPrompt template rr.visual_results ++ "\n\n" ++
      generateUserPrompt template query (rr.reranked_results.take 5)) = some t) :
    generateStructuredResponse generate visualStore query analysis template rr =
      { content := if t == "" then emptyGenApology else t
        sources := extractSources rr.reranked_results
        visuals := extractVisuals visualStore rr.visual_results
        confidence_score := calculateResponseConfidence analysis rr
          (if t == "" then emptyGenApology else t).length
        response_type := template.response_format } := by
  simp only [generateStructuredResponse, hgen]

/-- C6 counterexample: when the generation call returns an empty result, the
synthesized response is not error-typed and its confidence is not 0 — the
source only substitutes the apology content and otherwise proceeds normally. -/
theorem c6_counterexample :
    (generateStructuredResponse (fun _ => some "") (fun _ => none) ""
        (analyzeQuery "" 0) basicResponseTemplate emptyRetrieval).response_type =
      "structured" ∧
      (generateStructuredResponse (fun _ => some "") (fun _ => none) ""
          (analyzeQuery "" 0) basicResponseTemplate emptyRetrieval).response_type ≠
        "error" ∧
      (generateStructuredResponse (fun _ => some "") (fun _ => none) ""
          (analyzeQuery "" 0) basicResponseTemplate emptyRetrieval).content =
        emptyGenApology ∧
      (generateStructuredResponse (fun _ => some "") (fun _ => none) ""
          (analyzeQuery "" 0) basicResponseTemplate emptyRetrieval).confidence_score =
        3/5 ∧
      (generateStructuredResponse (fun _ => some "") (fun _ => none) ""
          (analyzeQuery "" 0) basicResponseTemplate emptyRetrieval).confidence_score ≠
        0 := by
  have hconf : calculateResponseConfidence (analyzeQuery "" 0) emptyRetrieval
      emptyGenApology.length = 3/5 := by
    have hl : decide (100 < emptyGenApology.length) = false := by decide
    simp only [calculateResponseConfidence, emptyRetrieval, List.isEmpty_nil,
      Bool.not_true, Bool.false_eq_true, if_false, hl, Bool.and_false]
    rw [analyzeEmpty_confidence]
    norm_num
  have hc : (generateStructuredResponse (fun _ => some "") (fun _ => none) ""
      (analyzeQuery "" 0) basicResponseTemplate emptyRetrieval).confidence_score =
        3/5 := hconf
  exact ⟨rfl, by decide, rfl, hc, by rw [hc]; norm_num⟩

/-- C6 (amended): when the external generation call raises, synthesis returns
the terminal error-typed response (confidence 0, apology content, empty
sources and visuals); when the call merely returns an empty result, synthesis
substitutes apology content but keeps the template response format and the
normally computed confidence — it is not treated as an error. -/
theorem c6_generation_failure_modes (visualStore : String → Option VisualData)
    (query : String) (analysis : QueryAnalysis) (template : ResponseTemplate)
    (rr : RetrievalResult) :
    ((generateStructuredResponse (fun _ => none) visualStore query analysis
        template rr).response_type = "error" ∧
      (generateStructuredResponse (fun _ => none) visualStore query analysis
        template rr).confidence_score = 0 ∧
      (generateStructuredResponse (fun _ => none) visualStore query analysis
        template rr).sources = [] ∧
      (generateStructuredResponse (fun _ => none) visualStore query analysis
        template rr).visuals = [] ∧
      (generateStructuredResponse (fun _ => none) visualStore query analysis
        template rr).content = genErrorApology) ∧
      ((generateStructuredResponse (fun _ => some "") visualStore query analysis
          template rr).response_type = template.response_format ∧
        (generateStructuredResponse (fun _ => some "") visualStore query analysis
          template rr).content = emptyGenApology ∧
        (generateStructuredResponse (fun _ => some "") visualStore query analysis
          template rr).confidence_score =
          calculateResponseConfidence analysis rr emptyGenApology.length) :=
  ⟨⟨rfl, rfl, rfl, rfl, rfl⟩, ⟨rfl, rfl, rfl⟩⟩

/-- C3 counterexample: with every retrieval stage empty the response
confidence is 0.6 (the analysis confidence), in particular not at most 0.3 as
the claim states. -/
theorem c3_counterexample :
    (retrieveAndGenerate (fun _ _ => []) (fun _ => some "Here is my answer.")
        (fun _ => none) "" 0).confidence_score = 3/5 ∧
      ¬ ((retrieveAndGenerate (fun _ _ => []) (fun _ => some "Here is my answer.")
          (fun _ => none) "" 0).confidence_score ≤ 3/10) := by
  have hcc : calculateResponseConfidence (analyzeQuery "" 0) emptyRetrieval
      ("Here is my answer.".length) = 3/5 := by
    have hl : decide (100 < ("Here is my answer.".length)) = false := by decide
    simp only [calculateResponseConfidence, emptyRetrieval, List.isEmpty_nil,
      Bool.not_true, Bool.false_eq_true, if_false, hl, Bool.and_false]
    rw [analyzeEmpty_confidence]
    norm_num
  have h35 : (retrieveAndGenerate (fun _ _ => []) (fun _ => some "Here is my answer.")
      (fun _ => none) "" 0).confidence_score = 3/5 := hcc
  exact ⟨h35, by rw [h35]; norm_num⟩

/-- C3 (amended): with every retrieval stage empty and the generation call
succeeding, the response has empty sources and visuals and a non-error
response type, but its confidence is at least 0.6 (the analysis confidence),
not at most 0.3 — the source applies no "no evidence" cap. -/
theorem c3_no_evidence_response (search : SearchFn)
    (generate : String → Option String) (visualStore : String → Option VisualData)
    (query : String) (historyLen : Nat)
    (hs : ∀ s k, search s k = []) (hg : ∀ p, generate p ≠ none) :
    (retrieveAndGenerate search generate visualStore query historyLen).sources = [] ∧
      (retrieveAndGenerate search generate visualStore query historyLen).visuals = [] ∧
      (retrieveAndGenerate search generate visualStore query historyLen).response_type ≠
        "error" ∧
      3/5 ≤ (retrieveAndGenerate search generate visualStore query
        historyLen).confidence_score := by
  have hrr := multiStage_empty search hs query (analyzeQuery query historyLen)
  simp only [retrieveAndGenerate, hrr]
  obtain ⟨t, hgen⟩ := Option.ne_none_iff_exists.mp
    (hg (generateSystemPrompt (selectResponseTemplate (analyzeQuery query historyLen))
        emptyRetrieval.visual_results ++ "\n\n" ++
      generateUserPrompt (selectResponseTemplate (analyzeQuery query historyLen))
        query (emptyRetrieval.reranked_results.take 5)))
  rw [genStructured_some _ _ _ _ _ _ _ hgen.symm]
  refine ⟨rfl, rfl, selectResponseTemplate_format_ne_error _, ?_⟩
  exact respConf_empty_lower _ _ (analyzeQuery_confidence_lower query historyLen)

/-- C3 witness: the amended statement at a concrete empty search and a
concrete succeeding generation call. -/
theorem c3_no_evidence_response_witness :
    (retrieveAndGenerate (fun _ _ => []) (fun _ => some "ok") (fun _ => none)
        "" 0).sources = [] ∧
      (retrieveAndGenerate (fun _ _ => []) (fun _ => some "ok") (fun _ => none)
        "" 0).visuals = [] ∧
      (retrieveAndGenerate (fun _ _ => []) (fun _ => some "ok") (fun _ => none)
        "" 0).response_type ≠ "error" ∧
      3/5 ≤ (retrieveAndGenerate (fun _ _ => []) (fun _ => some "ok")
        (fun _ => none) "" 0).confidence_score :=
  c3_no_evidence_response (fun _ _ => []) (fun _ => some "ok") (fun _ => none)
    "" 0 (fun _ _ => rfl) (fun _ h => Option.noConfusion h)

/-- Helper: inserting a candidate into a list leaves the sublist of any fixed
final score unchanged except for the inserted element, which lands after the
strictly-greater prefix — the key stability fact for the descending sort. -/
theorem filter_orderedInsert (s : ℚ) (a : Candidate) (l : List Candidate) :
    (List.orderedInsert rGe a l).filter (fun x => decide (keyScore x = s)) =
      if keyScore a = s then
        a :: l.filter (fun x => decide (keyScore x = s))
      else l.filter (fun x => decide (keyScore x = s)) := by
  induction l with
  | nil =>
    simp only [List.orderedInsert]
    by_cases has : keyScore a = s
    · simp [List.filter_cons, has]
    · simp [List.filter_cons, has]
  | cons b t ih =>
    by_cases hab : rGe a b
    · rw [List.orderedInsert_of_le rGe t hab]
      by_cases has : keyScore a = s
      · simp [List.filter_cons, has]
      · simp [List.filter_cons, has]
    · simp only [List.orderedInsert, if_neg hab]
      have hlt : keyScore a < keyScore b := not_le.mp hab
      by_cases has : keyScore a = s
      · have hbs : ¬ keyScore b = s := by
          intro h
          exact lt_irrefl s (by rwa [has, h] at hlt)
        simp [List.filter_cons, ih, has, hbs]
      · simp [List.filter_cons, ih, has]

/-- Helper: the stable descending sort keeps the candidates of each fixed
final score in their original relative order. -/
theorem filter_insertionSort (s : ℚ) (l : List Candidate) :
    (List.insertionSort rGe l).filter (fun x => decide (keyScore x = s)) =
      l.filter (fun x => decide (keyScore x = s)) := by
  induction l with
  | nil => rfl
  | cons a t ih =>
    simp only [List.insertionSort]
    rw [filter_orderedInsert]
    by_cases has : keyScore a = s
    · simp [List.filter_cons, has, ih]
    · simp [List.filter_cons, has, ih]

/-- Helper: the relevance score written sequentially in the source equals the
additive closed form of the fusion formula. -/
theorem relevanceScore_eq (analysis : QueryAnalysis) (c : Candidate) :
    relevanceScore analysis c = min (c.similarity_score
      + (if analysis.requires_visuals && (c.content_type == "synthetic_visual")
          then (2:ℚ)/10 else 0)
      + (if containsSub (lowerStr c.content) analysis.intent.value
          then (1:ℚ)/10 else 0)
      + ((analysis.visual_keywords.filter
          (fun k => containsSub (lowerStr c.content) k)).length : ℚ) * (5/100)) 1 := by
  simp only [relevanceScore]
  split_ifs <;> ring_nf

/-- Helper: every entry of the re-ranked list is the score-assigned image of
an input candidate. -/
theorem mem_rerank {analysis : QueryAnalysis} {rs : List Candidate}
    {c : Candidate} (hc : c ∈ rerankResults analysis rs) :
    ∃ c₀ ∈ rs, c = assignScore analysis c₀ := by
  simp only [rerankResults] at hc
  have h1 := List.mem_of_mem_take hc
  have h2 := (List.perm_insertionSort rGe _).mem_iff.mp h1
  obtain ⟨c₀, hc₀, heq⟩ := List.mem_map.mp h2
  exact ⟨c₀, hc₀, heq.symm⟩

/-- C8: the re-ranking stage returns at most 10 candidates, sorted
non-increasingly by final score; every returned candidate carries
final_score = min(similarity + 0.2·[requires_visuals ∧ synthetic_visual] +
0.1·[intent label occurs in content] + 0.05·(number of visual keywords
occurring in content), 1); and the sort is stable — for every score value the
returned candidates of that score form a prefix of the scored input
candidates of that score, in input order. -/
theorem c8_rerank_contract (analysis : QueryAnalysis)
    (all_results : List Candidate) :
    (rerankResults analysis all_results).length ≤ 10 ∧
      List.Sorted rGe (rerankResults analysis all_results) ∧
      (∀ c ∈ rerankResults analysis all_results,
        c.final_score = some (min (c.similarity_score
          + (if analysis.requires_visuals && (c.content_type == "synthetic_visual")
              then (2:ℚ)/10 else 0)
          + (if containsSub (lowerStr c.content) analysis.intent.value
              then (1:ℚ)/10 else 0)
          + ((analysis.visual_keywords.filter
              (fun k => containsSub (lowerStr c.content) k)).length : ℚ) * (5/100)) 1)) ∧
      ∀ s : ℚ,
        (rerankResults analysis all_results).filter
            (fun c => decide (keyScore c = s)) <+:
          (all_results.map (assignScore analysis)).filter
            (fun c => decide (keyScore c = s)) := by
  refine ⟨?_, ?_, ?_, ?_⟩
  · simp only [rerankResults]
    exact List.length_take_le 10 _
  · simp only [rerankResults]
    exact List.Pairwise.sublist (List.take_sublist 10 _)
      (List.sorted_insertionSort rGe _)
  · intro c hc
    obtain ⟨c₀, _, rfl⟩ := mem_rerank hc
    exact congrArg some (relevanceScore_eq analysis c₀)
  · intro s
    simp only [rerankResults]
    have h1 := filter_insertionSort s (all_results.map (assignScore analysis))
    rw [← h1]
    have hp : (List.insertionSort rGe (all_results.map (assignScore analysis))).take 10
        <+: List.insertionSort rGe (all_results.map (assignScore analysis)) :=
      ⟨_, List.take_append_drop 10 _⟩
    exact hp.filter _

/-- C8 witness: the contract evaluated at a one-candidate input. -/
theorem c8_rerank_contract_witness :
    (rerankResults (analyzeQuery "" 0) [c8Fixture]).length ≤ 10 ∧
      List.Sorted rGe (rerankResults (analyzeQuery "" 0) [c8Fixture]) ∧
      (assignScore (analyzeQuery "" 0) c8Fixture).final_score =
        some (min ((assignScore (analyzeQuery "" 0) c8Fixture).similarity_score
          + (if (analyzeQuery "" 0).requires_visuals &&
              ((assignScore (analyzeQuery "" 0) c8Fixture).content_type ==
                "synthetic_visual") then (2:ℚ)/10 else 0)
          + (if containsSub
                (lowerStr (assignScore (analyzeQuery "" 0) c8Fixture).content)
                (analyzeQuery "" 0).intent.value then (1:ℚ)/10 else 0)
          + (((analyzeQuery "" 0).visual_keywords.filter
              (fun k => containsSub
                (lowerStr (assignScore (analyzeQuery "" 0) c8Fixture).content)
                k)).length : ℚ) * (5/100)) 1) ∧
      (rerankResults (analyzeQuery "" 0) [c8Fixture]).filter
          (fun c => decide (keyScore c = 0)) <+:
        ([c8Fixture].map (assignScore (analyzeQuery "" 0))).filter
          (fun c => decide (keyScore c = 0)) := by
  have h := c8_rerank_contract (analyzeQuery "" 0) [c8Fixture]
  have hmem : assignScore (analyzeQuery "" 0) c8Fixture ∈
      rerankResults (analyzeQuery "" 0) [c8Fixture] := List.Mem.head _
  exact ⟨h.1, h.2.1, h.2.2.1 _ hmem, h.2.2.2 0⟩

/-- Helper: the fused relevance score is nonnegative whenever the similarity
score is. -/
theorem relevanceScore_nonneg (analysis : QueryAnalysis) (c : Candidate)
    (h0 : 0 ≤ c.similarity_score) : 0 ≤ relevanceScore analysis c := by
  rw [relevanceScore_eq]
  refine le_min ?_ (by norm_num)
  have hm : (0:ℚ) ≤ ((analysis.visual_keywords.filter
      (fun k => containsSub (lowerStr c.content) k)).length : ℚ) * (5/100) := by
    positivity
  split_ifs <;> linarith

/-- Helper: every candidate of the re-ranked list has a nonnegative stored
final score, provided the external search returns nonnegative similarity
scores. -/
theorem multiStage_reranked_scores_nonneg (search : SearchFn) (query : String)
    (analysis : QueryAnalysis)
    (hsim : ∀ s k, ∀ c ∈ search s k, 0 ≤ c.similarity_score) :
    ∀ c ∈ (multiStageRetrieval search query analysis).reranked_results,
      0 ≤ keyScore c := by
  intro c hc
  simp only [multiStageRetrieval] at hc
  obtain ⟨c₀, hc₀, rfl⟩ := mem_rerank hc
  have h0 : 0 ≤ c₀.similarity_score := by
    rcases List.mem_append.mp hc₀ with h | h
    · rcases List.mem_append.mp h with hp | hv
      · exact hsim query 10 c₀ hp
      · by_cases hb : analysis.requires_visuals = true
        · rw [if_pos hb] at hv
          simp only [visualRetrieval] at hv
          exact hsim _ 5 c₀ (List.mem_filter.mp hv).1
        · rw [if_neg hb] at hv
          exact absurd hv (List.not_mem_nil c₀)
    · simp only [contextExpansion] at h
      have h' := List.mem_of_mem_take h
      rw [List.mem_flatMap] at h'
      obtain ⟨p, _, hf⟩ := h'
      exact hsim _ 3 c₀ (List.mem_filter.mp hf).1
  exact relevanceScore_nonneg analysis c₀ h0

/-- Helper: the mean of nonnegative stored scores is nonnegative. -/
theorem meanFinalScore_nonneg (l : List Candidate)
    (h : ∀ c ∈ l, 0 ≤ keyScore c) : 0 ≤ meanFinalScore l := by
  unfold meanFinalScore
  apply div_nonneg _ (Nat.cast_nonneg _)
  apply List.sum_nonneg
  intro x hx
  obtain ⟨c, hc, rfl⟩ := List.mem_map.mp hx
  exact h c hc

/-- Helper: the response confidence is clamped into [0, 1] as soon as the
analysis confidence is nonnegative and the mean fused score is nonnegative. -/
theorem respConf_bounds (analysis : QueryAnalysis) (rr : RetrievalResult)
    (n : Nat) (hconf : 0 ≤ analysis.confidence)
    (hmean : 0 ≤ meanFinalScore rr.reranked_results) :
    0 ≤ calculateResponseConfidence analysis rr n ∧
      calculateResponseConfidence analysis rr n ≤ 1 := by
  constructor
  · simp only [calculateResponseConfidence]
    refine le_min ?_ (by norm_num)
    have h2 : (0:ℚ) ≤ meanFinalScore rr.reranked_results * (2/10) :=
      mul_nonneg hmean (by norm_num)
    split_ifs <;> linarith
  · simp only [calculateResponseConfidence]
    exact min_le_right _ _

/-- Helper: the complexity assessment is clamped into [0, 1]. -/
theorem assessComplexity_bounds (query : String) (keywords : List String) :
    0 ≤ assessComplexity query keywords ∧ assessComplexity query keywords ≤ 1 := by
  constructor
  · simp only [assessComplexity]
    refine le_min ?_ (by norm_num)
    split_ifs <;> positivity
  · simp only [assessComplexity]
    exact min_le_right _ _

/-- C9: for every input query (the empty string included) and every search
capability returning similarity scores in [0, 1], the analysis confidence,
the complexity score and the response confidence all lie within [0, 1]. -/
theorem c9_scores_unit_interval (search : SearchFn) (query : String)
    (historyLen responseLen : Nat)
    (hsim : ∀ s k, ∀ c ∈ search s k,
      0 ≤ c.similarity_score ∧ c.similarity_score ≤ 1) :
    (0 ≤ (analyzeQuery query historyLen).confidence ∧
        (analyzeQuery query historyLen).confidence ≤ 1) ∧
      (0 ≤ (analyzeQuery query historyLen).complexity_score ∧
        (analyzeQuery query historyLen).complexity_score ≤ 1) ∧
      (0 ≤ calculateResponseConfidence (analyzeQuery query historyLen)
          (multiStageRetrieval search query (analyzeQuery query historyLen))
          responseLen ∧
        calculateResponseConfidence (analyzeQuery query historyLen)
          (multiStageRetrieval search query (analyzeQuery query historyLen))
          responseLen ≤ 1) := by
  have hconf0 : 0 ≤ (analyzeQuery query historyLen).confidence :=
    le_trans (by norm_num) (analyzeQuery_confidence_lower query historyLen)
  have hconf1 : (analyzeQuery query historyLen).confidence ≤ 1 := by
    simp only [analyzeQuery, calculateConfidence]
    exact min_le_right _ _
  have hmean : 0 ≤ meanFinalScore
      (multiStageRetrieval search query (analyzeQuery query historyLen)).reranked_results :=
    meanFinalScore_nonneg _
      (multiStage_reranked_scores_nonneg search query (analyzeQuery query historyLen)
        (fun s k c hc => (hsim s k c hc).1))
  refine ⟨⟨hconf0, hconf1⟩, ?_, respConf_bounds _ _ _ hconf0 hmean⟩
  have h := assessComplexity_bounds query (extractKeywords query)
  simpa only [analyzeQuery] using h

/-- C9 witness: the bounds at the empty query and the empty search. -/
theorem c9_scores_unit_interval_witness :
    (0 ≤ (analyzeQuery "" 0).confidence ∧ (analyzeQuery "" 0).confidence ≤ 1) ∧
      (0 ≤ (analyzeQuery "" 0).complexity_score ∧
        (analyzeQuery "" 0).complexity_score ≤ 1) ∧
      (0 ≤ calculateResponseConfidence (analyzeQuery "" 0)
          (multiStageRetrieval (fun _ _ => []) "" (analyzeQuery "" 0)) 0 ∧
        calculateResponseConfidence (analyzeQuery "" 0)
          (multiStageRetrieval (fun _ _ => []) "" (analyzeQuery "" 0)) 0 ≤ 1) :=
  c9_scores_unit_interval (fun _ _ => []) "" 0 0
    (fun _ _ c hc => absurd hc (List.not_mem_nil c))

end MMRag
